import Mathlib

/-!
# Verification of the in-memory bank ledger (`examples/fastmcp/bank_data.py`)

Shallow embedding of the ledger demo: accounts and transactions are records,
the account registry is an insertion-ordered association list mirroring a
Python `dict` (insert updates in place, delete preserves the order of the
remaining entries), monetary values are exact decimals (integer coefficient
over a power-of-ten scale, mirroring Python `Decimal`: addition and
subtraction align to the finer scale, comparison and equality are numeric),
and timestamps are abstracted as natural numbers supplied to each operation
(`datetime.now` is ambient real time; its calendar rendering is abstracted
as the numeral of the abstract instant).
-/

namespace BankData

/-- Exact decimal number `c / 10 ^ s`, mirroring Python `Decimal` with
exponent `-s ≤ 0` (all values arising in the ledger are fixed-point). -/
structure Dec where
  c : Int
  s : Nat
deriving DecidableEq, Repr

namespace Dec

/-- Numeric value of a decimal, in ℚ. -/
def val (d : Dec) : ℚ := (d.c : ℚ) / (10 : ℚ) ^ d.s

/-- Addition: operands are aligned to the finer scale, as Python `Decimal.__add__`
does for exact sums (result exponent = min of the operand exponents). -/
def add (a b : Dec) : Dec :=
  ⟨a.c * 10 ^ (max a.s b.s - a.s) + b.c * 10 ^ (max a.s b.s - b.s), max a.s b.s⟩

/-- Subtraction, aligned to the finer scale like `add`. -/
def sub (a b : Dec) : Dec :=
  ⟨a.c * 10 ^ (max a.s b.s - a.s) - b.c * 10 ^ (max a.s b.s - b.s), max a.s b.s⟩

/-- Numeric strict comparison, as Python `Decimal.__lt__`. -/
def blt (a b : Dec) : Bool :=
  a.c * 10 ^ (max a.s b.s - a.s) < b.c * 10 ^ (max a.s b.s - b.s)

/-- Numeric non-strict comparison, as Python `Decimal.__le__`. -/
def ble (a b : Dec) : Bool :=
  a.c * 10 ^ (max a.s b.s - a.s) ≤ b.c * 10 ^ (max a.s b.s - b.s)

/-- Numeric equality, as Python `Decimal.__eq__` (value, not representation). -/
def beq (a b : Dec) : Bool :=
  a.c * 10 ^ (max a.s b.s - a.s) = b.c * 10 ^ (max a.s b.s - b.s)

end Dec

/-! ## Decimal rendering

`natDigitsAux` produces the decimal digits of a natural number (fuel-based so
that it is structurally recursive and kernel-reducible). `padZeros` pads with
leading zeros, as Python `f"{n:06d}"` does. `Dec.toStr` mirrors
`Decimal.__str__` on fixed-point values (exponent ≤ 0, adjusted exponent
≥ -6, the only region the ledger produces): digits with a decimal point
inserted `s` places from the right, zero-padded so at least one digit stands
before the point. `Dec.fmt2` mirrors `f"{d:.2f}"`: quantize to two decimal
places with round-half-even, then render. -/

def digitChar (d : Nat) : Char := Char.ofNat (48 + d)

def natDigitsAux : Nat → Nat → List Char
  | 0, _ => []
  | fuel + 1, n =>
    if n < 10 then [digitChar n]
    else natDigitsAux fuel (n / 10) ++ [digitChar (n % 10)]

/-- Decimal digit string of a natural number, most significant first. -/
def natStr (n : Nat) : String := ⟨natDigitsAux (n + 1) n⟩

def padZeros (l : List Char) (w : Nat) : List Char :=
  List.replicate (w - l.length) '0' ++ l

/-- `f"{n:06d}"` for a natural number. -/
def pad6 (n : Nat) : String := ⟨padZeros (natDigitsAux (n + 1) n) 6⟩

namespace Dec

/-- `str(d)` for a fixed-point `Decimal` (Python renders exponent `-s < 0`
as digits with a point `s` places from the right, e.g. `Decimal("0.00")`
prints `0.00`; `s = 0` renders as a plain integer). -/
def toStr (d : Dec) : String :=
  let sign := if d.c < 0 then "-" else ""
  let ds := natDigitsAux (d.c.natAbs + 1) d.c.natAbs
  if d.s = 0 then sign ++ ⟨ds⟩
  else
    let ds2 := padZeros ds (d.s + 1)
    sign ++ ⟨ds2.take (ds2.length - d.s)⟩ ++ "." ++ ⟨ds2.drop (ds2.length - d.s)⟩

/-- Euclidean division of `n` by `m > 0` rounded half-to-even, the default
rounding of Python's decimal context. -/
def roundHalfEvenDiv (n m : Int) : Int :=
  let q := Int.ediv n m
  let r := n - q * m
  if 2 * r < m then q
  else if m < 2 * r then q + 1
  else if q % 2 = 0 then q else q + 1

/-- The value of `d` in cents, rounded half-to-even (exact when `s ≤ 2`). -/
def cents (d : Dec) : Int :=
  if d.s ≤ 2 then d.c * 10 ^ (2 - d.s)
  else roundHalfEvenDiv d.c (10 ^ (d.s - 2))

/-- `f"{d:.2f}"`: two decimal places, round half even. -/
def fmt2 (d : Dec) : String := toStr ⟨d.cents, 2⟩

end Dec

/-! ## Data model (`Transaction`, `Account`, the registry) -/

/-- `Transaction` dataclass: one immutable ledger entry. -/
structure Transaction where
  id : String
  account_id : String
  amount : Dec
  transaction_type : String
  timestamp : Nat
  description : String
deriving DecidableEq, Repr

/-- `Account` dataclass: holder name, balance, append-only history. -/
structure Account where
  id : String
  name : String
  balance : Dec
  transactions : List Transaction
  created_at : Nat
deriving DecidableEq, Repr

/-- The `_accounts` registry: a Python `dict[str, Account]`, modelled as an
insertion-ordered association list with unique keys. -/
abbrev Registry := List (String × Account)

/-- `dict` lookup (`_accounts[k]` / `k in _accounts`). -/
def lookupAcc : Registry → String → Option Account
  | [], _ => none
  | (k, v) :: rest, key => if key = k then some v else lookupAcc rest key

/-- `dict` store (`_accounts[k] = v`): update in place if the key is
present, else append, as Python dicts do. -/
def storeAcc : Registry → String → Account → Registry
  | [], k, v => [(k, v)]
  | (k0, v0) :: rest, k, v =>
    if k = k0 then (k0, v) :: rest else (k0, v0) :: storeAcc rest k v

/-- `del _accounts[k]`: remove the entry with key `k` (a `dict` holds each
key once), keeping the other entries in order. -/
def eraseAcc : Registry → String → Registry
  | [], _ => []
  | (k0, v0) :: rest, k =>
    if k0 = k then eraseAcc rest k else (k0, v0) :: eraseAcc rest k

/-- Whole-store state: the `_accounts` dict and `_transaction_counter[0]`. -/
structure Bank where
  accounts : Registry
  txnCounter : Nat
deriving DecidableEq, Repr

/-- The initial state: empty registry, counter 0. -/
def Bank.init : Bank := ⟨[], 0⟩

/-- `_generate_transaction_id` formats counter value `n` (already
incremented) as `TXN{n:06d}`. -/
def mkTxnId (n : Nat) : String := "TXN" ++ pad6 n

/-- `_generate_account_id`: `f"ACC{len(_accounts) + 1:06d}"` — derived from
the CURRENT registry size, not a monotonic counter. -/
def generate_account_id (b : Bank) : String :=
  "ACC" ++ pad6 (b.accounts.length + 1)

/-- Abstract stand-in for `created_at.isoformat()` (calendar formatting of
the abstracted timestamp; injective rendering of the abstract instant). -/
def isoStr (t : Nat) : String := natStr t

/-- Abstract stand-in for `timestamp.strftime("%Y-%m-%d %H:%M")`. -/
def tsStr (t : Nat) : String := natStr t

/-! ## Operations (the `@mcp.tool` functions)

Every mutating operation takes the bank state and the current abstract time
`now` and returns the message string the Python function returns together
with the new state. -/

/-- `create_account(name, initial_deposit=0.0)`; `initial_deposit` arrives
validated `ge=0`. -/
def create_account (b : Bank) (now : Nat) (name : String) (initial_deposit : Dec) :
    String × Bank :=
  let account_id := generate_account_id b
  let base : Account := ⟨account_id, name, initial_deposit, [], now⟩
  if Dec.blt ⟨0, 0⟩ initial_deposit then
    let cnt := b.txnCounter + 1
    let txn : Transaction :=
      ⟨mkTxnId cnt, account_id, initial_deposit, "deposit", now, "Initial deposit"⟩
    let account : Account := { base with transactions := [txn] }
    ("Account created successfully. Account ID: " ++ account_id ++
       ", Balance: $" ++ account.balance.fmt2,
     ⟨storeAcc b.accounts account_id account, cnt⟩)
  else
    ("Account created successfully. Account ID: " ++ account_id ++
       ", Balance: $" ++ base.balance.fmt2,
     ⟨storeAcc b.accounts account_id base, b.txnCounter⟩)

/-- `get_account_info(account_id)`; read-only. -/
def get_account_info (b : Bank) (account_id : String) : String :=
  match lookupAcc b.accounts account_id with
  | none => "Error: Account " ++ account_id ++ " not found."
  | some account =>
    "Account ID: " ++ account.id ++ "\n" ++
    "Name: " ++ account.name ++ "\n" ++
    "Balance: $" ++ account.balance.fmt2 ++ "\n" ++
    "Created: " ++ isoStr account.created_at ++ "\n" ++
    "Transaction count: " ++ natStr account.transactions.length

/-- `close_account(account_id)`: only a zero-balance account may close
(`account.balance != Decimal("0.00")` is a numeric comparison). -/
def close_account (b : Bank) (account_id : String) : String × Bank :=
  match lookupAcc b.accounts account_id with
  | none => ("Error: Account " ++ account_id ++ " not found.", b)
  | some account =>
    if !(account.balance.beq ⟨0, 2⟩) then
      ("Error: Cannot close account with balance $" ++ account.balance.fmt2 ++
         ". Please withdraw all funds first.", b)
    else
      ("Account " ++ account_id ++ " has been closed successfully.",
       ⟨eraseAcc b.accounts account_id, b.txnCounter⟩)

/-- `deposit(account_id, amount, description="Deposit")`; `amount` arrives
validated `gt=0`. -/
def deposit (b : Bank) (now : Nat) (account_id : String) (amount : Dec)
    (description : String) : String × Bank :=
  match lookupAcc b.accounts account_id with
  | none => ("Error: Account " ++ account_id ++ " not found.", b)
  | some account =>
    let cnt := b.txnCounter + 1
    let txn : Transaction := ⟨mkTxnId cnt, account_id, amount, "deposit", now, description⟩
    let account2 : Account :=
      { account with balance := account.balance.add amount,
                     transactions := account.transactions ++ [txn] }
    ("Deposited $" ++ amount.fmt2 ++ " to " ++ account_id ++
       ". New balance: $" ++ account2.balance.fmt2,
     ⟨storeAcc b.accounts account_id account2, cnt⟩)

/-- `withdraw(account_id, amount, description="Withdrawal")`; `amount`
arrives validated `gt=0`. -/
def withdraw (b : Bank) (now : Nat) (account_id : String) (amount : Dec)
    (description : String) : String × Bank :=
  match lookupAcc b.accounts account_id with
  | none => ("Error: Account " ++ account_id ++ " not found.", b)
  | some account =>
    if account.balance.blt amount then
      ("Error: Insufficient funds. Available balance: $" ++ account.balance.fmt2, b)
    else
      let cnt := b.txnCounter + 1
      let txn : Transaction :=
        ⟨mkTxnId cnt, account_id, amount, "withdrawal", now, description⟩
      let account2 : Account :=
        { account with balance := account.balance.sub amount,
                       transactions := account.transactions ++ [txn] }
      ("Withdrew $" ++ amount.fmt2 ++ " from " ++ account_id ++
         ". New balance: $" ++ account2.balance.fmt2,
       ⟨storeAcc b.accounts account_id account2, cnt⟩)

/-- `transfer(from_account_id, to_account_id, amount, description="Transfer")`;
`amount` arrives validated `gt=0`. Guard order as in the source: source
presence, destination presence, same-account, funds; both transactions are
created with the one shared `timestamp`. -/
def transfer (b : Bank) (now : Nat) (from_account_id to_account_id : String)
    (amount : Dec) (description : String) : String × Bank :=
  match lookupAcc b.accounts from_account_id, lookupAcc b.accounts to_account_id with
  | none, _ => ("Error: Source account " ++ from_account_id ++ " not found.", b)
  | some _, none => ("Error: Destination account " ++ to_account_id ++ " not found.", b)
  | some from_account, some to_account =>
    if from_account_id = to_account_id then
      ("Error: Cannot transfer to the same account.", b)
    else if from_account.balance.blt amount then
      ("Error: Insufficient funds. Available balance: $" ++ from_account.balance.fmt2, b)
    else
      let out_txn : Transaction :=
        ⟨mkTxnId (b.txnCounter + 1), from_account_id, amount, "transfer_out", now,
          description ++ " to " ++ to_account_id⟩
      let in_txn : Transaction :=
        ⟨mkTxnId (b.txnCounter + 2), to_account_id, amount, "transfer_in", now,
          description ++ " from " ++ from_account_id⟩
      let fa : Account :=
        { from_account with balance := from_account.balance.sub amount,
                            transactions := from_account.transactions ++ [out_txn] }
      let ta : Account :=
        { to_account with balance := to_account.balance.add amount,
                          transactions := to_account.transactions ++ [in_txn] }
      ("Transferred $" ++ amount.fmt2 ++ " from " ++ from_account_id ++ " to " ++
         to_account_id ++ ".\n" ++
         "Source balance: $" ++ fa.balance.fmt2 ++ "\n" ++
         "Destination balance: $" ++ ta.balance.fmt2,
       ⟨storeAcc (storeAcc b.accounts from_account_id fa) to_account_id ta,
        b.txnCounter + 2⟩)

/-- `"-" * n`. -/
def dashes (n : Nat) : String := ⟨List.replicate n '-'⟩

/-- The sign shown in a history line: `"+" if txn.transaction_type in
("deposit", "transfer_in") else "-"`. -/
def histSign (txn : Transaction) : String :=
  if txn.transaction_type = "deposit" ∨ txn.transaction_type = "transfer_in"
  then "+" else "-"

/-- One line of the history listing. -/
def histLine (txn : Transaction) : String :=
  "  " ++ tsStr txn.timestamp ++ " | " ++ histSign txn ++ "$" ++
    txn.amount.fmt2 ++ " | " ++ txn.description

/-- Python slice `transactions[-limit:]` (for `limit = 0` the slice is the
whole list; the tool validates `limit ≥ 1`). -/
def lastSlice (l : List Transaction) (limit : Nat) : List Transaction :=
  if limit = 0 then l else l.drop (l.length - limit)

/-- `get_transaction_history(account_id, limit=10)`; `limit` arrives
validated `ge=1, le=100`. -/
def get_transaction_history (b : Bank) (account_id : String) (limit : Nat) : String :=
  match lookupAcc b.accounts account_id with
  | none => "Error: Account " ++ account_id ++ " not found."
  | some account =>
    let transactions := lastSlice account.transactions limit
    if transactions = [] then
      "No transactions found for account " ++ account_id ++ "."
    else
      String.intercalate "\n"
        (["Transaction History for " ++ account_id ++ ":", dashes 50]
          ++ transactions.reverse.map histLine
          ++ [dashes 50, "Current Balance: $" ++ account.balance.fmt2])

/-- Resource `bank://account/{account_id}/balance`: `"0.00"` when the id is
absent, else `str(balance)`. -/
def get_balance_resource (b : Bank) (account_id : String) : String :=
  match lookupAcc b.accounts account_id with
  | none => "0.00"
  | some account => account.balance.toStr

/-! ## Operation sequences and reachable states -/

/-- One invocation of a mutating tool, with its abstract call time and
arguments. -/
inductive Op where
  | create (now : Nat) (name : String) (initial_deposit : Dec)
  | close (account_id : String)
  | dep (now : Nat) (account_id : String) (amount : Dec) (description : String)
  | wd (now : Nat) (account_id : String) (amount : Dec) (description : String)
  | xfer (now : Nat) (from_account_id to_account_id : String) (amount : Dec)
      (description : String)
deriving DecidableEq, Repr

/-- The argument bounds the surrounding framework validates before the tool
runs (`ge=0` on the initial deposit, `gt=0` on the amounts). -/
def Op.valid : Op → Prop
  | .create _ _ d => Dec.ble ⟨0, 0⟩ d = true
  | .close _ => True
  | .dep _ _ a _ => Dec.blt ⟨0, 0⟩ a = true
  | .wd _ _ a _ => Dec.blt ⟨0, 0⟩ a = true
  | .xfer _ _ _ a _ => Dec.blt ⟨0, 0⟩ a = true

instance : DecidablePred Op.valid := fun o => by
  cases o <;> simp only [Op.valid] <;> infer_instance

/-- State transition of one tool call (the message is discarded). -/
def Op.apply (b : Bank) : Op → Bank
  | .create now name d => (create_account b now name d).2
  | .close i => (close_account b i).2
  | .dep now i a d => (deposit b now i a d).2
  | .wd now i a d => (withdraw b now i a d).2
  | .xfer now f t a d => (transfer b now f t a d).2

/-- Run a sequence of tool calls from a state. -/
def runOps (b : Bank) : List Op → Bank
  | [] => b
  | op :: ops => runOps (op.apply b) ops

/-- States the server can be in: produced from the fresh store by some
sequence of validated tool calls. -/
def Reachable (b : Bank) : Prop :=
  ∃ ops : List Op, (∀ op ∈ ops, op.valid) ∧ runOps Bank.init ops = b

/-! ## Spec-side ledger sums and the store invariant -/

/-- The signed contribution of a stored transaction to its account:
`deposit` and `transfer_in` count positive, every other type negative. -/
def signedVal (t : Transaction) : ℚ :=
  if t.transaction_type = "deposit" ∨ t.transaction_type = "transfer_in"
  then t.amount.val else -t.amount.val

/-- Signed sum of the stored transaction amounts of a history. -/
def signedSum (l : List Transaction) : ℚ := (l.map signedVal).sum

/-- Sum of the amounts of the crediting transactions (`deposit`,
`transfer_in`) of a history. -/
def creditSum (l : List Transaction) : ℚ :=
  (l.map fun t =>
    if t.transaction_type = "deposit" ∨ t.transaction_type = "transfer_in"
    then t.amount.val else 0).sum

/-- Sum of the amounts of the debiting transactions (`withdrawal`,
`transfer_out`) of a history. -/
def debitSum (l : List Transaction) : ℚ :=
  (l.map fun t =>
    if t.transaction_type = "withdrawal" ∨ t.transaction_type = "transfer_out"
    then t.amount.val else 0).sum

/-- The four transaction types the ledger writes. -/
def GoodTxn (t : Transaction) : Prop :=
  t.transaction_type = "deposit" ∨ t.transaction_type = "withdrawal" ∨
  t.transaction_type = "transfer_in" ∨ t.transaction_type = "transfer_out"

/-- Store invariant: every registered account's balance is exactly the
signed sum of its stored transactions, is non-negative, and its history
holds only the four ledger transaction types. -/
def Inv (b : Bank) : Prop :=
  ∀ i a, lookupAcc b.accounts i = some a →
    a.balance.val = signedSum a.transactions ∧ 0 ≤ a.balance.val ∧
    ∀ t ∈ a.transactions, GoodTxn t

/-! ## Bridge lemmas: `Dec` comparisons against zero, registry frames -/

theorem Dec.val_scale (x : Int) (u v : Nat) (h : u ≤ v) :
    ((x * 10 ^ (v - u) : Int) : ℚ) / (10 : ℚ) ^ v = (x : ℚ) / (10 : ℚ) ^ u := by
  have hp : (10 : ℚ) ^ (v - u) * (10 : ℚ) ^ u = (10 : ℚ) ^ v := pow_sub_mul_pow 10 h
  push_cast
  rw [div_eq_div_iff (by positivity) (by positivity)]
  calc (x : ℚ) * (10 : ℚ) ^ (v - u) * (10 : ℚ) ^ u
      = (x : ℚ) * ((10 : ℚ) ^ (v - u) * (10 : ℚ) ^ u) := by ring
    _ = (x : ℚ) * (10 : ℚ) ^ v := by rw [hp]

theorem Dec.val_left (a b : Dec) :
    a.val = ((a.c * 10 ^ (max a.s b.s - a.s) : Int) : ℚ) / (10 : ℚ) ^ max a.s b.s :=
  (val_scale a.c a.s (max a.s b.s) (le_max_left _ _)).symm

theorem Dec.val_right (a b : Dec) :
    b.val = ((b.c * 10 ^ (max a.s b.s - b.s) : Int) : ℚ) / (10 : ℚ) ^ max a.s b.s :=
  (val_scale b.c b.s (max a.s b.s) (le_max_right _ _)).symm

theorem Dec.val_add (a b : Dec) : (a.add b).val = a.val + b.val := by
  rw [val_left a b, val_right a b]
  simp only [add, val]
  push_cast
  rw [add_div]

theorem Dec.val_sub (a b : Dec) : (a.sub b).val = a.val - b.val := by
  rw [val_left a b, val_right a b]
  simp only [sub, val]
  push_cast
  rw [sub_div]

theorem Dec.blt_iff (a b : Dec) : a.blt b = true ↔ a.val < b.val := by
  rw [val_left a b, val_right a b]
  simp only [blt, decide_eq_true_iff]
  rw [div_lt_div_iff_of_pos_right (by positivity : (0 : ℚ) < (10 : ℚ) ^ max a.s b.s),
    Int.cast_lt]

theorem Dec.ble_iff (a b : Dec) : a.ble b = true ↔ a.val ≤ b.val := by
  rw [val_left a b, val_right a b]
  simp only [ble, decide_eq_true_iff]
  rw [div_le_div_iff_of_pos_right (by positivity : (0 : ℚ) < (10 : ℚ) ^ max a.s b.s),
    Int.cast_le]

theorem Dec.beq_iff (a b : Dec) : a.beq b = true ↔ a.val = b.val := by
  rw [val_left a b, val_right a b]
  simp only [beq, decide_eq_true_iff]
  constructor
  · intro h
    rw [h]
  · intro h
    have h2 := congrArg (· * (10 : ℚ) ^ max a.s b.s) h
    simp only [div_mul_cancel₀ _
      (by positivity : ((10 : ℚ) ^ max a.s b.s) ≠ 0)] at h2
    exact_mod_cast h2


theorem Dec.val_zero (s : Nat) : (⟨0, s⟩ : Dec).val = 0 := by
  simp [Dec.val]

theorem Dec.pos_iff (d : Dec) : Dec.blt ⟨0, 0⟩ d = true ↔ 0 < d.val := by
  rw [Dec.blt_iff, Dec.val_zero]

theorem Dec.nonneg_iff (d : Dec) : Dec.ble ⟨0, 0⟩ d = true ↔ 0 ≤ d.val := by
  rw [Dec.ble_iff, Dec.val_zero]

theorem Dec.zero_beq_iff (d : Dec) : Dec.beq d ⟨0, 2⟩ = true ↔ d.val = 0 := by
  rw [Dec.beq_iff, Dec.val_zero]

/-- Looking up after a `dict` store: the stored key now maps to the stored
value, every other key is untouched. -/
theorem lookupAcc_storeAcc (l : Registry) (k : String) (v : Account) (key : String) :
    lookupAcc (storeAcc l k v) key = if key = k then some v else lookupAcc l key := by
  induction l with
  | nil => simp [storeAcc, lookupAcc]
  | cons p rest ih =>
    obtain ⟨k0, v0⟩ := p
    by_cases h0 : k = k0
    · subst h0
      simp only [storeAcc, if_pos rfl]
      by_cases h1 : key = k <;> simp [lookupAcc, h1]
    · simp only [storeAcc, if_neg h0, lookupAcc, ih]
      by_cases h1 : key = k0
      · have h2 : ¬ key = k := fun hk => h0 (hk.symm.trans h1)
        have h3 : ¬ k0 = k := fun hk => h0 hk.symm
        simp [h1, h2, h3]
      · simp [h1]

/-- Looking up after a `dict` delete: the deleted key is gone, every other
key is untouched. -/
theorem lookupAcc_eraseAcc (l : Registry) (k key : String) :
    lookupAcc (eraseAcc l k) key = if key = k then none else lookupAcc l key := by
  induction l with
  | nil => simp [eraseAcc, lookupAcc]
  | cons p rest ih =>
    obtain ⟨k0, v0⟩ := p
    by_cases h0 : k0 = k
    · subst h0
      simp only [eraseAcc, if_pos rfl, lookupAcc]
      by_cases h1 : key = k0
      · subst h1
        simp [ih]
      · simp [h1, ih]
    · simp only [eraseAcc, if_neg h0, lookupAcc]
      by_cases h1 : key = k0
      · have h2 : ¬ key = k := fun hk => h0 (h1.symm.trans hk)
        simp [h1, h2, h0]
      · simp [h1, ih]

/-! ## Claim theorems -/

/-- **C3.** A transfer with an absent source id fails with the source
not-found error; with a present source and absent destination it fails with
the destination not-found error (so absence of either account is detected
before any mutation); with both present and equal ids it fails with the
same-account error; with both present, distinct ids and source balance
below the amount it fails with the insufficient-funds error. In every
failure case the returned state is exactly the input state: no balance and
no transaction list is mutated. -/
theorem transfer_failure_spec (b : Bank) (now : Nat) (A B : String) (x : Dec)
    (descr : String) :
    (lookupAcc b.accounts A = none →
      transfer b now A B x descr =
        ("Error: Source account " ++ A ++ " not found.", b)) ∧
    (∀ fa, lookupAcc b.accounts A = some fa → lookupAcc b.accounts B = none →
      transfer b now A B x descr =
        ("Error: Destination account " ++ B ++ " not found.", b)) ∧
    (∀ fa ta, lookupAcc b.accounts A = some fa → lookupAcc b.accounts B = some ta →
      A = B →
      transfer b now A B x descr = ("Error: Cannot transfer to the same account.", b)) ∧
    (∀ fa ta, lookupAcc b.accounts A = some fa → lookupAcc b.accounts B = some ta →
      A ≠ B → fa.balance.val < x.val →
      transfer b now A B x descr =
        ("Error: Insufficient funds. Available balance: $" ++ fa.balance.fmt2, b)) := by
  refine ⟨?_, ?_, ?_, ?_⟩
  · intro hA
    simp [transfer, hA]
  · intro fa hA hB
    simp [transfer, hA, hB]
  · intro fa ta hA hB hAB
    simp [transfer, hA, hB, hAB]
  · intro fa ta hA hB hAB hlt
    have hb : fa.balance.blt x = true := (Dec.blt_iff _ _).mpr hlt
    simp [transfer, hA, hB, hAB, hb]

/-- Witness for C3: each failure branch observed on a concrete store
(empty store; one account `A`; transfer `A → A`; two accounts with source
balance `$10.00` and amount `$50.00`). -/
theorem transfer_failure_spec_w :
    transfer ⟨[], 0⟩ 0 "A" "B" ⟨5000, 2⟩ "t" =
      ("Error: Source account " ++ "A" ++ " not found.", ⟨[], 0⟩) ∧
    transfer ⟨[("A", ⟨"A", "u", ⟨1000, 2⟩, [], 0⟩)], 0⟩ 0 "A" "B" ⟨5000, 2⟩ "t" =
      ("Error: Destination account " ++ "B" ++ " not found.",
       ⟨[("A", ⟨"A", "u", ⟨1000, 2⟩, [], 0⟩)], 0⟩) ∧
    transfer ⟨[("A", ⟨"A", "u", ⟨1000, 2⟩, [], 0⟩)], 0⟩ 0 "A" "A" ⟨5000, 2⟩ "t" =
      ("Error: Cannot transfer to the same account.",
       ⟨[("A", ⟨"A", "u", ⟨1000, 2⟩, [], 0⟩)], 0⟩) ∧
    transfer ⟨[("A", ⟨"A", "u", ⟨1000, 2⟩, [], 0⟩), ("B", ⟨"B", "v", ⟨2000, 2⟩, [], 0⟩)], 0⟩
        0 "A" "B" ⟨5000, 2⟩ "t" =
      ("Error: Insufficient funds. Available balance: $" ++ (⟨1000, 2⟩ : Dec).fmt2,
       ⟨[("A", ⟨"A", "u", ⟨1000, 2⟩, [], 0⟩), ("B", ⟨"B", "v", ⟨2000, 2⟩, [], 0⟩)], 0⟩) :=
  ⟨(transfer_failure_spec ⟨[], 0⟩ 0 "A" "B" ⟨5000, 2⟩ "t").1 rfl,
   (transfer_failure_spec ⟨[("A", ⟨"A", "u", ⟨1000, 2⟩, [], 0⟩)], 0⟩ 0 "A" "B"
       ⟨5000, 2⟩ "t").2.1 ⟨"A", "u", ⟨1000, 2⟩, [], 0⟩ rfl rfl,
   (transfer_failure_spec ⟨[("A", ⟨"A", "u", ⟨1000, 2⟩, [], 0⟩)], 0⟩ 0 "A" "A"
       ⟨5000, 2⟩ "t").2.2.1 ⟨"A", "u", ⟨1000, 2⟩, [], 0⟩ ⟨"A", "u", ⟨1000, 2⟩, [], 0⟩
       rfl rfl rfl,
   (transfer_failure_spec
       ⟨[("A", ⟨"A", "u", ⟨1000, 2⟩, [], 0⟩), ("B", ⟨"B", "v", ⟨2000, 2⟩, [], 0⟩)], 0⟩
       0 "A" "B" ⟨5000, 2⟩ "t").2.2.2 ⟨"A", "u", ⟨1000, 2⟩, [], 0⟩
       ⟨"B", "v", ⟨2000, 2⟩, [], 0⟩ rfl rfl (by decide)
       ((Dec.blt_iff ⟨1000, 2⟩ ⟨5000, 2⟩).mp (by decide))⟩

/-- **C5.** For a present account and a positive amount: when the amount
exceeds the balance the withdrawal fails with the insufficient-funds
message reporting the available balance and returns the store unchanged
(same balance, same transaction list); when it does not, the withdrawal
succeeds, appends exactly one `withdrawal` transaction of that amount and
the new balance is the old balance minus the amount, exactly. -/
theorem withdraw_spec (b : Bank) (now : Nat) (i : String) (x : Dec)
    (descr : String) (a : Account)
    (h : lookupAcc b.accounts i = some a) (hx : 0 < x.val) :
    (a.balance.val < x.val →
      withdraw b now i x descr =
        ("Error: Insufficient funds. Available balance: $" ++ a.balance.fmt2, b)) ∧
    (x.val ≤ a.balance.val →
      withdraw b now i x descr =
        ("Withdrew $" ++ x.fmt2 ++ " from " ++ i ++ ". New balance: $" ++
           (a.balance.sub x).fmt2,
         ⟨storeAcc b.accounts i
            ⟨a.id, a.name, a.balance.sub x,
             a.transactions ++
               [⟨mkTxnId (b.txnCounter + 1), i, x, "withdrawal", now, descr⟩],
             a.created_at⟩,
          b.txnCounter + 1⟩) ∧
      (a.balance.sub x).val = a.balance.val - x.val) := by
  constructor
  · intro hlt
    have hb : a.balance.blt x = true := (Dec.blt_iff _ _).mpr hlt
    simp [withdraw, h, hb]
  · intro hle
    have hb : a.balance.blt x = false := by
      cases hcase : a.balance.blt x with
      | false => rfl
      | true => exact absurd ((Dec.blt_iff _ _).mp hcase) (not_lt.mpr hle)
    refine ⟨?_, Dec.val_sub _ _⟩
    simp [withdraw, h, hb]

/-- Witness for C5: on an account holding `$10.00`, withdrawing `$50.00`
fails leaving the store unchanged, and withdrawing `$2.00` succeeds,
appending one `withdrawal` transaction. -/
theorem withdraw_spec_w :
    withdraw ⟨[("A", ⟨"A", "u", ⟨1000, 2⟩, [], 0⟩)], 0⟩ 5 "A" ⟨5000, 2⟩ "w" =
      ("Error: Insufficient funds. Available balance: $" ++ (⟨1000, 2⟩ : Dec).fmt2,
       ⟨[("A", ⟨"A", "u", ⟨1000, 2⟩, [], 0⟩)], 0⟩) ∧
    withdraw ⟨[("A", ⟨"A", "u", ⟨1000, 2⟩, [], 0⟩)], 0⟩ 5 "A" ⟨200, 2⟩ "w" =
      ("Withdrew $" ++ (⟨200, 2⟩ : Dec).fmt2 ++ " from " ++ "A" ++ ". New balance: $" ++
         ((⟨1000, 2⟩ : Dec).sub ⟨200, 2⟩).fmt2,
       ⟨storeAcc [("A", ⟨"A", "u", ⟨1000, 2⟩, [], 0⟩)] "A"
          ⟨"A", "u", (⟨1000, 2⟩ : Dec).sub ⟨200, 2⟩,
           [] ++ [⟨mkTxnId 1, "A", ⟨200, 2⟩, "withdrawal", 5, "w"⟩], 0⟩,
        1⟩) :=
  ⟨(withdraw_spec ⟨[("A", ⟨"A", "u", ⟨1000, 2⟩, [], 0⟩)], 0⟩ 5 "A" ⟨5000, 2⟩ "w"
      ⟨"A", "u", ⟨1000, 2⟩, [], 0⟩ rfl
      ((Dec.pos_iff ⟨5000, 2⟩).mp (by decide))).1
      ((Dec.blt_iff ⟨1000, 2⟩ ⟨5000, 2⟩).mp (by decide)),
   ((withdraw_spec ⟨[("A", ⟨"A", "u", ⟨1000, 2⟩, [], 0⟩)], 0⟩ 5 "A" ⟨200, 2⟩ "w"
      ⟨"A", "u", ⟨1000, 2⟩, [], 0⟩ rfl
      ((Dec.pos_iff ⟨200, 2⟩).mp (by decide))).2
      ((Dec.ble_iff ⟨200, 2⟩ ⟨1000, 2⟩).mp (by decide))).1⟩

/-- **C6.** For a present account id: closing fails exactly when the
balance is not numerically zero, with the non-zero-balance message
reporting the current balance, and the account remains in the store;
closing succeeds exactly when the balance is zero, after which the id no
longer resolves and `get_account_info` reports it not found. -/
theorem close_account_spec (b : Bank) (i : String) (a : Account)
    (h : lookupAcc b.accounts i = some a) :
    (a.balance.val ≠ 0 →
      close_account b i =
        ("Error: Cannot close account with balance $" ++ a.balance.fmt2 ++
           ". Please withdraw all funds first.", b) ∧
      lookupAcc (close_account b i).2.accounts i = some a) ∧
    (a.balance.val = 0 →
      close_account b i =
        ("Account " ++ i ++ " has been closed successfully.",
         ⟨eraseAcc b.accounts i, b.txnCounter⟩) ∧
      lookupAcc (close_account b i).2.accounts i = none ∧
      get_account_info (close_account b i).2 i =
        "Error: Account " ++ i ++ " not found.") := by
  constructor
  · intro hne
    have hb : a.balance.beq ⟨0, 2⟩ = false := by
      cases hcase : a.balance.beq ⟨0, 2⟩ with
      | false => rfl
      | true => exact absurd ((Dec.zero_beq_iff _).mp hcase) hne
    constructor
    · simp [close_account, h, hb]
    · simp [close_account, h, hb]
  · intro hz
    have hb : a.balance.beq ⟨0, 2⟩ = true := (Dec.zero_beq_iff _).mpr hz
    refine ⟨?_, ?_, ?_⟩
    · simp [close_account, h, hb]
    · simp [close_account, h, hb, lookupAcc_eraseAcc]
    · simp [get_account_info, close_account, h, hb, lookupAcc_eraseAcc]

/-- Witness for C6: an account holding `$10.00` cannot close and stays in
the store; a zero-balance account closes and then no longer resolves. -/
theorem close_account_spec_w :
    (close_account ⟨[("A", ⟨"A", "u", ⟨1000, 2⟩, [], 0⟩)], 0⟩ "A" =
      ("Error: Cannot close account with balance $" ++ (⟨1000, 2⟩ : Dec).fmt2 ++
         ". Please withdraw all funds first.",
       ⟨[("A", ⟨"A", "u", ⟨1000, 2⟩, [], 0⟩)], 0⟩) ∧
     lookupAcc (close_account ⟨[("A", ⟨"A", "u", ⟨1000, 2⟩, [], 0⟩)], 0⟩ "A").2.accounts
       "A" = some ⟨"A", "u", ⟨1000, 2⟩, [], 0⟩) ∧
    (close_account ⟨[("Z", ⟨"Z", "u", ⟨0, 2⟩, [], 0⟩)], 0⟩ "Z" =
      ("Account " ++ "Z" ++ " has been closed successfully.",
       ⟨eraseAcc [("Z", ⟨"Z", "u", ⟨0, 2⟩, [], 0⟩)] "Z", 0⟩) ∧
     lookupAcc (close_account ⟨[("Z", ⟨"Z", "u", ⟨0, 2⟩, [], 0⟩)], 0⟩ "Z").2.accounts
       "Z" = none ∧
     get_account_info (close_account ⟨[("Z", ⟨"Z", "u", ⟨0, 2⟩, [], 0⟩)], 0⟩ "Z").2 "Z" =
       "Error: Account " ++ "Z" ++ " not found.") :=
  ⟨(close_account_spec ⟨[("A", ⟨"A", "u", ⟨1000, 2⟩, [], 0⟩)], 0⟩ "A"
      ⟨"A", "u", ⟨1000, 2⟩, [], 0⟩ rfl).1
      (fun hz => absurd ((Dec.zero_beq_iff ⟨1000, 2⟩).mpr hz) (by decide)),
   (close_account_spec ⟨[("Z", ⟨"Z", "u", ⟨0, 2⟩, [], 0⟩)], 0⟩ "Z"
      ⟨"Z", "u", ⟨0, 2⟩, [], 0⟩ rfl).2 ((Dec.zero_beq_iff ⟨0, 2⟩).mp (by decide))⟩

/-- **C2.** A successful transfer of `x` from `A` to `B` leaves `A` holding
its old balance minus exactly `x` and `B` its old balance plus exactly `x`,
and appends exactly one `transfer_out` transaction of amount `x` to `A` and
one `transfer_in` transaction of amount `x` to `B`; both carry the one
shared timestamp of the call, and each description contains the counterpart
account id. -/
theorem transfer_success_spec (b : Bank) (now : Nat) (A B : String) (x : Dec)
    (descr : String) (fa ta : Account)
    (hA : lookupAcc b.accounts A = some fa)
    (hB : lookupAcc b.accounts B = some ta)
    (hne : A ≠ B)
    (hf : x.val ≤ fa.balance.val) :
    lookupAcc (transfer b now A B x descr).2.accounts A =
      some ⟨fa.id, fa.name, fa.balance.sub x,
        fa.transactions ++
          [⟨mkTxnId (b.txnCounter + 1), A, x, "transfer_out", now,
            descr ++ " to " ++ B⟩],
        fa.created_at⟩ ∧
    lookupAcc (transfer b now A B x descr).2.accounts B =
      some ⟨ta.id, ta.name, ta.balance.add x,
        ta.transactions ++
          [⟨mkTxnId (b.txnCounter + 2), B, x, "transfer_in", now,
            descr ++ " from " ++ A⟩],
        ta.created_at⟩ ∧
    (fa.balance.sub x).val = fa.balance.val - x.val ∧
    (ta.balance.add x).val = ta.balance.val + x.val ∧
    (∃ p q : String, descr ++ " to " ++ B = p ++ B ++ q) ∧
    (∃ p q : String, descr ++ " from " ++ A = p ++ A ++ q) ∧
    (∀ j, j ≠ A → j ≠ B →
      lookupAcc (transfer b now A B x descr).2.accounts j =
        lookupAcc b.accounts j) := by
  have hb : fa.balance.blt x = false := by
    cases hcase : fa.balance.blt x with
    | false => rfl
    | true => exact absurd ((Dec.blt_iff _ _).mp hcase) (not_lt.mpr hf)
  refine ⟨?_, ?_, Dec.val_sub _ _, Dec.val_add _ _,
    ⟨descr ++ " to ", "", ?_⟩, ⟨descr ++ " from ", "", ?_⟩, ?_⟩
  · simp [transfer, hA, hB, hne, hb, lookupAcc_storeAcc]
  · simp [transfer, hA, hB, hne, hb, lookupAcc_storeAcc]
  · simp [String.append_assoc]
  · simp [String.append_assoc]
  · intro j hjA hjB
    simp [transfer, hA, hB, hne, hb, lookupAcc_storeAcc, hjA, hjB]

/-- Witness for C2: Alice (`$100.00`) transfers `$30.00` to Bob (`$50.00`). -/
theorem transfer_success_spec_w :
    lookupAcc (transfer
        ⟨[("ACC000001", ⟨"ACC000001", "Alice", ⟨10000, 2⟩, [], 0⟩),
          ("ACC000002", ⟨"ACC000002", "Bob", ⟨5000, 2⟩, [], 0⟩)], 0⟩
        7 "ACC000001" "ACC000002" ⟨3000, 2⟩ "Transfer").2.accounts "ACC000001" =
      some ⟨"ACC000001", "Alice", (⟨10000, 2⟩ : Dec).sub ⟨3000, 2⟩,
        [] ++ [⟨mkTxnId 1, "ACC000001", ⟨3000, 2⟩, "transfer_out", 7,
          "Transfer" ++ " to " ++ "ACC000002"⟩], 0⟩ ∧
    lookupAcc (transfer
        ⟨[("ACC000001", ⟨"ACC000001", "Alice", ⟨10000, 2⟩, [], 0⟩),
          ("ACC000002", ⟨"ACC000002", "Bob", ⟨5000, 2⟩, [], 0⟩)], 0⟩
        7 "ACC000001" "ACC000002" ⟨3000, 2⟩ "Transfer").2.accounts "ACC000002" =
      some ⟨"ACC000002", "Bob", (⟨5000, 2⟩ : Dec).add ⟨3000, 2⟩,
        [] ++ [⟨mkTxnId 2, "ACC000002", ⟨3000, 2⟩, "transfer_in", 7,
          "Transfer" ++ " from " ++ "ACC000001"⟩], 0⟩ ∧
    ((⟨10000, 2⟩ : Dec).sub ⟨3000, 2⟩).val = (⟨10000, 2⟩ : Dec).val - (⟨3000, 2⟩ : Dec).val ∧
    ((⟨5000, 2⟩ : Dec).add ⟨3000, 2⟩).val = (⟨5000, 2⟩ : Dec).val + (⟨3000, 2⟩ : Dec).val ∧
    (∃ p q : String, "Transfer" ++ " to " ++ "ACC000002" = p ++ "ACC000002" ++ q) ∧
    (∃ p q : String, "Transfer" ++ " from " ++ "ACC000001" = p ++ "ACC000001" ++ q) ∧
    (∀ j, j ≠ "ACC000001" → j ≠ "ACC000002" →
      lookupAcc (transfer
        ⟨[("ACC000001", ⟨"ACC000001", "Alice", ⟨10000, 2⟩, [], 0⟩),
          ("ACC000002", ⟨"ACC000002", "Bob", ⟨5000, 2⟩, [], 0⟩)], 0⟩
        7 "ACC000001" "ACC000002" ⟨3000, 2⟩ "Transfer").2.accounts j =
      lookupAcc
        [("ACC000001", ⟨"ACC000001", "Alice", ⟨10000, 2⟩, [], 0⟩),
         ("ACC000002", ⟨"ACC000002", "Bob", ⟨5000, 2⟩, [], 0⟩)] j) :=
  transfer_success_spec
    ⟨[("ACC000001", ⟨"ACC000001", "Alice", ⟨10000, 2⟩, [], 0⟩),
      ("ACC000002", ⟨"ACC000002", "Bob", ⟨5000, 2⟩, [], 0⟩)], 0⟩
    7 "ACC000001" "ACC000002" ⟨3000, 2⟩ "Transfer"
    ⟨"ACC000001", "Alice", ⟨10000, 2⟩, [], 0⟩
    ⟨"ACC000002", "Bob", ⟨5000, 2⟩, [], 0⟩
    rfl rfl (by decide) ((Dec.ble_iff ⟨3000, 2⟩ ⟨10000, 2⟩).mp (by decide))

/-- **C9.** `create_account` allocates the id derived from the registry
size, registers an account whose balance is exactly the initial deposit,
and appends exactly one `deposit` transaction described "Initial deposit"
iff the deposit is positive (an account opened with deposit 0 has an empty
history); in an empty store the allocated id is `ACC000001`. -/
theorem create_account_spec (b : Bank) (now : Nat) (name : String) (d : Dec)
    (hd : 0 ≤ d.val) :
    (create_account b now name d).1 =
      "Account created successfully. Account ID: " ++ generate_account_id b ++
        ", Balance: $" ++ d.fmt2 ∧
    lookupAcc (create_account b now name d).2.accounts (generate_account_id b) =
      some ⟨generate_account_id b, name, d,
        if 0 < d.val then
          [⟨mkTxnId (b.txnCounter + 1), generate_account_id b, d, "deposit", now,
            "Initial deposit"⟩]
        else [], now⟩ ∧
    (b.accounts = [] → generate_account_id b = "ACC000001") := by
  refine ⟨?_, ?_, ?_⟩
  · cases hc : Dec.blt ⟨0, 0⟩ d <;> simp [create_account, hc]
  · cases hc : Dec.blt ⟨0, 0⟩ d with
    | false =>
      have hnp : ¬ 0 < d.val := fun hp =>
        (Bool.false_ne_true) (hc ▸ (Dec.pos_iff d).mpr hp)
      simp [create_account, hc, lookupAcc_storeAcc, if_neg hnp]
    | true =>
      have hp : 0 < d.val := (Dec.pos_iff d).mp hc
      simp [create_account, hc, lookupAcc_storeAcc, if_pos hp]
  · intro he
    simp only [generate_account_id, he, List.length_nil]
    decide

/-- Witness for C9: the first account, "John Doe" with `$100.00`, gets id
`ACC000001`, balance `$100.00` and exactly one `deposit` transaction. -/
theorem create_account_spec_w :
    (create_account Bank.init 0 "John Doe" ⟨10000, 2⟩).1 =
      "Account created successfully. Account ID: " ++ generate_account_id Bank.init ++
        ", Balance: $" ++ (⟨10000, 2⟩ : Dec).fmt2 ∧
    lookupAcc (create_account Bank.init 0 "John Doe" ⟨10000, 2⟩).2.accounts
        (generate_account_id Bank.init) =
      some ⟨generate_account_id Bank.init, "John Doe", ⟨10000, 2⟩,
        if 0 < (⟨10000, 2⟩ : Dec).val then
          [⟨mkTxnId 1, generate_account_id Bank.init, ⟨10000, 2⟩, "deposit", 0,
            "Initial deposit"⟩]
        else [], 0⟩ ∧
    (Bank.init.accounts = [] → generate_account_id Bank.init = "ACC000001") :=
  create_account_spec Bank.init 0 "John Doe" ⟨10000, 2⟩
    ((Dec.nonneg_iff ⟨10000, 2⟩).mp (by decide))

/-- **C10.** The balance resource returns the string `"0.00"` for an absent
account id instead of an error, and `str(balance)` for a present one; a
reachable store holds a zero-balance account whose resource string is also
exactly `"0.00"`, so reading `"0.00"` cannot tell an unknown account apart
from such an existing zero-balance account. -/
theorem balance_resource_spec (b : Bank) (i : String) :
    (lookupAcc b.accounts i = none → get_balance_resource b i = "0.00") ∧
    (∀ a, lookupAcc b.accounts i = some a →
      get_balance_resource b i = a.balance.toStr) ∧
    (∃ b2 : Bank, Reachable b2 ∧ ∃ a : Account,
      lookupAcc b2.accounts "ACC000001" = some a ∧ a.balance.val = 0 ∧
      get_balance_resource b2 "ACC000001" = "0.00") := by
  refine ⟨?_, ?_, ?_⟩
  · intro hn
    simp [get_balance_resource, hn]
  · intro a ha
    simp [get_balance_resource, ha]
  · refine ⟨runOps Bank.init
      [.create 0 "x" ⟨1, 2⟩, .wd 1 "ACC000001" ⟨1, 2⟩ "w"],
      ⟨[.create 0 "x" ⟨1, 2⟩, .wd 1 "ACC000001" ⟨1, 2⟩ "w"], by decide, rfl⟩,
      ⟨"ACC000001", "x", ⟨0, 2⟩,
        [⟨"TXN000001", "ACC000001", ⟨1, 2⟩, "deposit", 0, "Initial deposit"⟩,
         ⟨"TXN000002", "ACC000001", ⟨1, 2⟩, "withdrawal", 1, "w"⟩], 0⟩,
      by decide, Dec.val_zero 2, by decide⟩

/-- Witness for C10: the resource on the empty store returns `"0.00"` for
an unknown id, and `str(balance)` for a present account. -/
theorem balance_resource_spec_w :
    get_balance_resource Bank.init "ACC000009" = "0.00" ∧
    get_balance_resource ⟨[("A", ⟨"A", "u", ⟨123, 1⟩, [], 0⟩)], 0⟩ "A" =
      (⟨123, 1⟩ : Dec).toStr :=
  ⟨(balance_resource_spec Bank.init "ACC000009").1 rfl,
   (balance_resource_spec ⟨[("A", ⟨"A", "u", ⟨123, 1⟩, [], 0⟩)], 0⟩ "A").2.1
     ⟨"A", "u", ⟨123, 1⟩, [], 0⟩ rfl⟩

/-! ## The store invariant is preserved by every validated operation -/

theorem signedSum_nil : signedSum [] = 0 := rfl

theorem signedSum_append (l : List Transaction) (t : Transaction) :
    signedSum (l ++ [t]) = signedSum l + signedVal t := by
  simp [signedSum]

/-- One validated tool call preserves the store invariant. -/
theorem inv_apply (b : Bank) (op : Op) (hv : op.valid) (hb : Inv b) :
    Inv (op.apply b) := by
  cases op with
  | create now name d =>
    have hd : 0 ≤ d.val := (Dec.nonneg_iff d).mp hv
    intro i a ha
    cases hc : Dec.blt ⟨0, 0⟩ d with
    | true =>
      simp only [Op.apply, create_account, hc, if_true] at ha
      rw [lookupAcc_storeAcc] at ha
      by_cases hi : i = generate_account_id b
      · rw [if_pos hi] at ha
        injection ha with ha2
        subst ha2
        refine ⟨?_, hd, ?_⟩
        · simp [signedSum, signedVal]
        · intro t ht
          simp only [List.mem_singleton] at ht
          subst ht
          exact Or.inl rfl
      · rw [if_neg hi] at ha
        exact hb i a ha
    | false =>
      have hz : d.val = 0 := le_antisymm
        (not_lt.mp fun hp => Bool.false_ne_true (hc ▸ (Dec.pos_iff d).mpr hp)) hd
      simp only [Op.apply, create_account, hc, Bool.false_eq_true, if_false] at ha
      rw [lookupAcc_storeAcc] at ha
      by_cases hi : i = generate_account_id b
      · rw [if_pos hi] at ha
        injection ha with ha2
        subst ha2
        exact ⟨by simpa [signedSum] using hz, hd, by simp⟩
      · rw [if_neg hi] at ha
        exact hb i a ha
  | close i0 =>
    intro i a ha
    rcases hl : lookupAcc b.accounts i0 with _ | acct
    · simp only [Op.apply, close_account, hl] at ha
      exact hb i a ha
    · cases hq : acct.balance.beq ⟨0, 2⟩ with
      | false =>
        simp only [Op.apply, close_account, hl, hq, Bool.not_false, if_true] at ha
        exact hb i a ha
      | true =>
        simp only [Op.apply, close_account, hl, hq, Bool.not_true,
          Bool.false_eq_true, if_false] at ha
        rw [lookupAcc_eraseAcc] at ha
        by_cases hi : i = i0
        · rw [if_pos hi] at ha
          exact Option.noConfusion ha
        · rw [if_neg hi] at ha
          exact hb i a ha
  | dep now i0 x descr =>
    have hx0 : 0 < x.val := (Dec.pos_iff x).mp hv
    intro i a ha
    rcases hl : lookupAcc b.accounts i0 with _ | acct
    · simp only [Op.apply, deposit, hl] at ha
      exact hb i a ha
    · simp only [Op.apply, deposit, hl] at ha
      rw [lookupAcc_storeAcc] at ha
      by_cases hi : i = i0
      · rw [if_pos hi] at ha
        injection ha with ha2
        subst ha2
        obtain ⟨hsum, hpos, hgood⟩ := hb i0 acct hl
        refine ⟨?_, ?_, ?_⟩
        · show (acct.balance.add x).val = signedSum (acct.transactions ++ [_])
          rw [Dec.val_add, signedSum_append, hsum]
          simp [signedVal]
        · show 0 ≤ (acct.balance.add x).val
          rw [Dec.val_add]
          exact add_nonneg hpos (le_of_lt hx0)
        · intro t ht
          rcases List.mem_append.mp ht with h1 | h1
          · exact hgood t h1
          · simp only [List.mem_singleton] at h1
            subst h1
            exact Or.inl rfl
      · rw [if_neg hi] at ha
        exact hb i a ha
  | wd now i0 x descr =>
    intro i a ha
    rcases hl : lookupAcc b.accounts i0 with _ | acct
    · simp only [Op.apply, withdraw, hl] at ha
      exact hb i a ha
    · cases hblt : acct.balance.blt x with
      | true =>
        simp only [Op.apply, withdraw, hl, hblt, if_true] at ha
        exact hb i a ha
      | false =>
        have hle : x.val ≤ acct.balance.val := not_lt.mp fun hlt =>
          Bool.false_ne_true (hblt ▸ (Dec.blt_iff _ _).mpr hlt)
        simp only [Op.apply, withdraw, hl, hblt, Bool.false_eq_true, if_false] at ha
        rw [lookupAcc_storeAcc] at ha
        by_cases hi : i = i0
        · rw [if_pos hi] at ha
          injection ha with ha2
          subst ha2
          obtain ⟨hsum, hpos, hgood⟩ := hb i0 acct hl
          refine ⟨?_, ?_, ?_⟩
          · show (acct.balance.sub x).val = signedSum (acct.transactions ++ [_])
            rw [Dec.val_sub, signedSum_append, hsum]
            simp [signedVal, sub_eq_add_neg]
          · show 0 ≤ (acct.balance.sub x).val
            rw [Dec.val_sub]
            exact sub_nonneg.mpr hle
          · intro t ht
            rcases List.mem_append.mp ht with h1 | h1
            · exact hgood t h1
            · simp only [List.mem_singleton] at h1
              subst h1
              exact Or.inr (Or.inl rfl)
        · rw [if_neg hi] at ha
          exact hb i a ha
  | xfer now A B x descr =>
    have hx0 : 0 < x.val := (Dec.pos_iff x).mp hv
    intro i a ha
    rcases hlA : lookupAcc b.accounts A with _ | fa
    · simp only [Op.apply, transfer, hlA] at ha
      exact hb i a ha
    · rcases hlB : lookupAcc b.accounts B with _ | ta
      · simp only [Op.apply, transfer, hlA, hlB] at ha
        exact hb i a ha
      · by_cases hAB : A = B
        · simp only [Op.apply, transfer, hlA, hlB, if_pos hAB] at ha
          exact hb i a ha
        · cases hblt : fa.balance.blt x with
          | true =>
            simp only [Op.apply, transfer, hlA, hlB, if_neg hAB, hblt, if_true] at ha
            exact hb i a ha
          | false =>
            have hle : x.val ≤ fa.balance.val := not_lt.mp fun hlt =>
              Bool.false_ne_true (hblt ▸ (Dec.blt_iff _ _).mpr hlt)
            simp only [Op.apply, transfer, hlA, hlB, if_neg hAB, hblt,
              Bool.false_eq_true, if_false] at ha
            rw [lookupAcc_storeAcc, lookupAcc_storeAcc] at ha
            obtain ⟨hsA, hpA, hgA⟩ := hb A fa hlA
            obtain ⟨hsB, hpB, hgB⟩ := hb B ta hlB
            by_cases hiB : i = B
            · rw [if_pos hiB] at ha
              injection ha with ha2
              subst ha2
              refine ⟨?_, ?_, ?_⟩
              · show (ta.balance.add x).val = signedSum (ta.transactions ++ [_])
                rw [Dec.val_add, signedSum_append, hsB]
                simp [signedVal]
              · show 0 ≤ (ta.balance.add x).val
                rw [Dec.val_add]
                exact add_nonneg hpB (le_of_lt hx0)
              · intro t ht
                rcases List.mem_append.mp ht with h1 | h1
                · exact hgB t h1
                · simp only [List.mem_singleton] at h1
                  subst h1
                  exact Or.inr (Or.inr (Or.inl rfl))
            · rw [if_neg hiB] at ha
              by_cases hiA : i = A
              · rw [if_pos hiA] at ha
                injection ha with ha2
                subst ha2
                refine ⟨?_, ?_, ?_⟩
                · show (fa.balance.sub x).val = signedSum (fa.transactions ++ [_])
                  rw [Dec.val_sub, signedSum_append, hsA]
                  simp [signedVal, sub_eq_add_neg]
                · show 0 ≤ (fa.balance.sub x).val
                  rw [Dec.val_sub]
                  exact sub_nonneg.mpr hle
                · intro t ht
                  rcases List.mem_append.mp ht with h1 | h1
                  · exact hgA t h1
                  · simp only [List.mem_singleton] at h1
                    subst h1
                    exact Or.inr (Or.inr (Or.inr rfl))
              · rw [if_neg hiA] at ha
                exact hb i a ha

/-- Running validated tool calls preserves the store invariant. -/
theorem inv_runOps (b : Bank) (ops : List Op) (hb : Inv b)
    (hv : ∀ op ∈ ops, op.valid) : Inv (runOps b ops) := by
  induction ops generalizing b with
  | nil => exact hb
  | cons op rest ih =>
    exact ih (op.apply b) (inv_apply b op (hv op (by simp)) hb)
      (fun o ho => hv o (by simp [ho]))

theorem inv_init : Inv Bank.init := by
  intro i a ha
  exact Option.noConfusion ha

/-- Every reachable store satisfies the invariant. -/
theorem reachable_inv (b : Bank) (hb : Reachable b) : Inv b := by
  obtain ⟨ops, hv, hrun⟩ := hb
  exact hrun ▸ inv_runOps Bank.init ops inv_init hv

/-- A good-typed transaction's signed value splits into its credit part
minus its debit part. -/
theorem signedVal_eq_credit_sub_debit (t : Transaction) (hg : GoodTxn t) :
    signedVal t =
      (if t.transaction_type = "deposit" ∨ t.transaction_type = "transfer_in"
       then t.amount.val else 0) -
      (if t.transaction_type = "withdrawal" ∨ t.transaction_type = "transfer_out"
       then t.amount.val else 0) := by
  rcases hg with h | h | h | h <;> simp [signedVal, h]

theorem signedSum_eq_credit_sub_debit (l : List Transaction)
    (hg : ∀ t ∈ l, GoodTxn t) : signedSum l = creditSum l - debitSum l := by
  induction l with
  | nil => simp [signedSum, creditSum, debitSum]
  | cons t rest ih =>
    simp only [signedSum, creditSum, debitSum, List.map_cons, List.sum_cons] at *
    rw [signedVal_eq_credit_sub_debit t (hg t (by simp)),
      ih (fun u hu => hg u (by simp [hu]))]
    ring

/-- **C1.** In every reachable store, every account's balance equals the
signed sum of its stored transaction amounts since creation (`deposit` and
`transfer_in` positive, `withdrawal` and `transfer_out` negative), exactly,
with no rounding drift — equivalently the sum of crediting amounts (the
initial deposit, when positive, is itself a stored `deposit` transaction)
minus the sum of debiting amounts. -/
theorem balance_eq_signed_sum (b : Bank) (hb : Reachable b) (i : String)
    (a : Account) (h : lookupAcc b.accounts i = some a) :
    a.balance.val = signedSum a.transactions ∧
    a.balance.val = creditSum a.transactions - debitSum a.transactions := by
  obtain ⟨hs, _, hg⟩ := reachable_inv b hb i a h
  exact ⟨hs, hs.trans (signedSum_eq_credit_sub_debit a.transactions hg)⟩

/-- Witness for C1: after creating "J" with `$100.00`, depositing `$25.00`
and withdrawing `$20.00`, the balance `$105.00` is the signed sum of the
three stored transactions. -/
theorem balance_eq_signed_sum_w :
    Reachable (runOps Bank.init
      [.create 0 "J" ⟨10000, 2⟩, .dep 1 "ACC000001" ⟨2500, 2⟩ "d",
       .wd 2 "ACC000001" ⟨2000, 2⟩ "w"]) ∧
    lookupAcc (runOps Bank.init
      [.create 0 "J" ⟨10000, 2⟩, .dep 1 "ACC000001" ⟨2500, 2⟩ "d",
       .wd 2 "ACC000001" ⟨2000, 2⟩ "w"]).accounts "ACC000001" =
      some ⟨"ACC000001", "J", ⟨10500, 2⟩,
        [⟨"TXN000001", "ACC000001", ⟨10000, 2⟩, "deposit", 0, "Initial deposit"⟩,
         ⟨"TXN000002", "ACC000001", ⟨2500, 2⟩, "deposit", 1, "d"⟩,
         ⟨"TXN000003", "ACC000001", ⟨2000, 2⟩, "withdrawal", 2, "w"⟩], 0⟩ ∧
    ((⟨10500, 2⟩ : Dec).val =
      signedSum
        [⟨"TXN000001", "ACC000001", ⟨10000, 2⟩, "deposit", 0, "Initial deposit"⟩,
         ⟨"TXN000002", "ACC000001", ⟨2500, 2⟩, "deposit", 1, "d"⟩,
         ⟨"TXN000003", "ACC000001", ⟨2000, 2⟩, "withdrawal", 2, "w"⟩] ∧
     (⟨10500, 2⟩ : Dec).val =
      creditSum
        [⟨"TXN000001", "ACC000001", ⟨10000, 2⟩, "deposit", 0, "Initial deposit"⟩,
         ⟨"TXN000002", "ACC000001", ⟨2500, 2⟩, "deposit", 1, "d"⟩,
         ⟨"TXN000003", "ACC000001", ⟨2000, 2⟩, "withdrawal", 2, "w"⟩] -
      debitSum
        [⟨"TXN000001", "ACC000001", ⟨10000, 2⟩, "deposit", 0, "Initial deposit"⟩,
         ⟨"TXN000002", "ACC000001", ⟨2500, 2⟩, "deposit", 1, "d"⟩,
         ⟨"TXN000003", "ACC000001", ⟨2000, 2⟩, "withdrawal", 2, "w"⟩]) :=
  ⟨⟨[.create 0 "J" ⟨10000, 2⟩, .dep 1 "ACC000001" ⟨2500, 2⟩ "d",
     .wd 2 "ACC000001" ⟨2000, 2⟩ "w"], by decide, rfl⟩,
   by decide,
   balance_eq_signed_sum
     (runOps Bank.init
       [.create 0 "J" ⟨10000, 2⟩, .dep 1 "ACC000001" ⟨2500, 2⟩ "d",
        .wd 2 "ACC000001" ⟨2000, 2⟩ "w"])
     ⟨[.create 0 "J" ⟨10000, 2⟩, .dep 1 "ACC000001" ⟨2500, 2⟩ "d",
       .wd 2 "ACC000001" ⟨2000, 2⟩ "w"], by decide, rfl⟩
     "ACC000001"
     ⟨"ACC000001", "J", ⟨10500, 2⟩,
       [⟨"TXN000001", "ACC000001", ⟨10000, 2⟩, "deposit", 0, "Initial deposit"⟩,
        ⟨"TXN000002", "ACC000001", ⟨2500, 2⟩, "deposit", 1, "d"⟩,
        ⟨"TXN000003", "ACC000001", ⟨2000, 2⟩, "withdrawal", 2, "w"⟩], 0⟩
     (by decide)⟩

/-- **C7.** In every reachable store — i.e. after every sequence of
validated `create`/`deposit`/`withdraw`/`transfer`/`close` calls — every
account's balance is non-negative. -/
theorem balance_nonneg (b : Bank) (hb : Reachable b) (i : String) (a : Account)
    (h : lookupAcc b.accounts i = some a) : 0 ≤ a.balance.val :=
  (reachable_inv b hb i a h).2.1

/-- Witness for C7: after creating an account with `$50.00` and withdrawing
`$20.00` the balance is non-negative. -/
theorem balance_nonneg_w :
    Reachable (runOps Bank.init
      [.create 0 "a" ⟨5000, 2⟩, .wd 1 "ACC000001" ⟨2000, 2⟩ "w"]) ∧
    lookupAcc (runOps Bank.init
      [.create 0 "a" ⟨5000, 2⟩, .wd 1 "ACC000001" ⟨2000, 2⟩ "w"]).accounts
      "ACC000001" =
      some ⟨"ACC000001", "a", ⟨3000, 2⟩,
        [⟨"TXN000001", "ACC000001", ⟨5000, 2⟩, "deposit", 0, "Initial deposit"⟩,
         ⟨"TXN000002", "ACC000001", ⟨2000, 2⟩, "withdrawal", 1, "w"⟩], 0⟩ ∧
    0 ≤ (⟨3000, 2⟩ : Dec).val :=
  ⟨⟨[.create 0 "a" ⟨5000, 2⟩, .wd 1 "ACC000001" ⟨2000, 2⟩ "w"], by decide, rfl⟩,
   by decide,
   balance_nonneg
     (runOps Bank.init [.create 0 "a" ⟨5000, 2⟩, .wd 1 "ACC000001" ⟨2000, 2⟩ "w"])
     ⟨[.create 0 "a" ⟨5000, 2⟩, .wd 1 "ACC000001" ⟨2000, 2⟩ "w"], by decide, rfl⟩
     "ACC000001"
     ⟨"ACC000001", "a", ⟨3000, 2⟩,
       [⟨"TXN000001", "ACC000001", ⟨5000, 2⟩, "deposit", 0, "Initial deposit"⟩,
        ⟨"TXN000002", "ACC000001", ⟨2000, 2⟩, "withdrawal", 1, "w"⟩], 0⟩
     (by decide)⟩

/-- **C8 (counterexample).** As stated, the history claim fails for an
existing account with an empty transaction history: with `limit = 10` the
tool answers the no-transactions message, which does not end with a
`Current Balance` summary line. -/
theorem history_no_summary_cex :
    lookupAcc (⟨[("A", ⟨"A", "u", ⟨0, 2⟩, [], 0⟩)], 0⟩ : Bank).accounts "A" =
      some ⟨"A", "u", ⟨0, 2⟩, [], 0⟩ ∧
    get_transaction_history ⟨[("A", ⟨"A", "u", ⟨0, 2⟩, [], 0⟩)], 0⟩ "A" 10 =
      "No transactions found for account A." ∧
    ¬ ∃ pre : String,
      get_transaction_history ⟨[("A", ⟨"A", "u", ⟨0, 2⟩, [], 0⟩)], 0⟩ "A" 10 =
        pre ++ ("Current Balance: $" ++ (⟨0, 2⟩ : Dec).fmt2) := by
  refine ⟨rfl, by decide, ?_⟩
  rintro ⟨pre, hpre⟩
  have hsuf : ("Current Balance: $" ++ (⟨0, 2⟩ : Dec).fmt2).data <:+
      (get_transaction_history ⟨[("A", ⟨"A", "u", ⟨0, 2⟩, [], 0⟩)], 0⟩ "A" 10).data :=
    ⟨pre.data, by rw [hpre]; simp⟩
  revert hsuf
  decide

/-- **C8 (amended).** For a present account with a NONEMPTY history and a
limit in `[1, 100]`, the listing is exactly: a header, a dashed rule, the
most recent `limit` transactions newest first — each line signed `+` for
`deposit`/`transfer_in` and `-` for `withdrawal`/`transfer_out` — a dashed
rule, and a trailing summary line with the current balance. (For an account
with no transactions the tool instead answers a no-transactions message
with no summary line.) -/
theorem history_spec (b : Bank) (i : String) (a : Account) (limit : Nat)
    (h : lookupAcc b.accounts i = some a) (hne : a.transactions ≠ [])
    (h1 : 1 ≤ limit) (h100 : limit ≤ 100) :
    get_transaction_history b i limit =
      String.intercalate "\n"
        (["Transaction History for " ++ i ++ ":", dashes 50]
          ++ (a.transactions.reverse.take limit).map histLine
          ++ [dashes 50, "Current Balance: $" ++ a.balance.fmt2]) := by
  have hk : ¬ limit = 0 := by omega
  have hslice : lastSlice a.transactions limit =
      a.transactions.drop (a.transactions.length - limit) := by
    simp [lastSlice, hk]
  have hrev : (lastSlice a.transactions limit).reverse =
      a.transactions.reverse.take limit := by
    rw [hslice,
      show a.transactions.drop (a.transactions.length - limit) =
        a.transactions.rtake limit from rfl,
      List.rtake_eq_reverse_take_reverse, List.reverse_reverse]
  have hnonempty : ¬ lastSlice a.transactions limit = [] := by
    intro hempty
    have h0 : a.transactions.length ≠ 0 := fun hz =>
      hne (List.eq_nil_of_length_eq_zero hz)
    have hlen := congrArg List.length hempty
    rw [hslice, List.length_drop, List.length_nil] at hlen
    omega
  simp only [get_transaction_history, h]
  rw [if_neg hnonempty, hrev]

/-- Witness for C8 (amended): an account with three transactions listed
with `limit = 10`: all three, newest first, trailing balance line. -/
theorem history_spec_w :
    get_transaction_history
      ⟨[("A", ⟨"A", "u", ⟨10500, 2⟩,
        [⟨"TXN000001", "A", ⟨10000, 2⟩, "deposit", 0, "Initial deposit"⟩,
         ⟨"TXN000002", "A", ⟨2500, 2⟩, "deposit", 1, "d"⟩,
         ⟨"TXN000003", "A", ⟨2000, 2⟩, "withdrawal", 2, "w"⟩], 0⟩)], 0⟩ "A" 10 =
      String.intercalate "\n"
        (["Transaction History for " ++ "A" ++ ":", dashes 50]
          ++ (([⟨"TXN000001", "A", ⟨10000, 2⟩, "deposit", 0, "Initial deposit"⟩,
                ⟨"TXN000002", "A", ⟨2500, 2⟩, "deposit", 1, "d"⟩,
                ⟨"TXN000003", "A", ⟨2000, 2⟩, "withdrawal", 2, "w"⟩] :
               List Transaction).reverse.take 10).map histLine
          ++ [dashes 50, "Current Balance: $" ++ (⟨10500, 2⟩ : Dec).fmt2]) :=
  history_spec
    ⟨[("A", ⟨"A", "u", ⟨10500, 2⟩,
      [⟨"TXN000001", "A", ⟨10000, 2⟩, "deposit", 0, "Initial deposit"⟩,
       ⟨"TXN000002", "A", ⟨2500, 2⟩, "deposit", 1, "d"⟩,
       ⟨"TXN000003", "A", ⟨2000, 2⟩, "withdrawal", 2, "w"⟩], 0⟩)], 0⟩ "A"
    ⟨"A", "u", ⟨10500, 2⟩,
      [⟨"TXN000001", "A", ⟨10000, 2⟩, "deposit", 0, "Initial deposit"⟩,
       ⟨"TXN000002", "A", ⟨2500, 2⟩, "deposit", 1, "d"⟩,
       ⟨"TXN000003", "A", ⟨2000, 2⟩, "withdrawal", 2, "w"⟩], 0⟩ 10
    rfl (by decide) (by decide) (by decide)

/-- **C4.** The claim that account ids are never issued twice is violated
by the code: `_generate_account_id` derives the id from the CURRENT
registry size, so after creating two zero-balance accounts (`ACC000001`,
`ACC000002`) and closing `ACC000001`, the registry holds one account and
the next generated id is `ACC000002` again — already issued and still
present — and the subsequent `create_account` silently overwrites the
surviving account (the registry stays at one entry, now named "c"). -/
theorem account_id_reused :
    generate_account_id (runOps Bank.init
      [.create 0 "a" ⟨0, 2⟩, .create 1 "b" ⟨0, 2⟩, .close "ACC000001"]) =
      "ACC000002" ∧
    (lookupAcc (runOps Bank.init
      [.create 0 "a" ⟨0, 2⟩, .create 1 "b" ⟨0, 2⟩, .close "ACC000001"]).accounts
      "ACC000002").isSome = true ∧
    (runOps Bank.init
      [.create 0 "a" ⟨0, 2⟩, .create 1 "b" ⟨0, 2⟩, .close "ACC000001",
       .create 2 "c" ⟨0, 2⟩]).accounts.length = 1 ∧
    (lookupAcc (runOps Bank.init
      [.create 0 "a" ⟨0, 2⟩, .create 1 "b" ⟨0, 2⟩, .close "ACC000001",
       .create 2 "c" ⟨0, 2⟩]).accounts "ACC000002").map Account.name = some "c" := by
  refine ⟨by decide, by decide, by decide, by decide⟩

end BankData
